import Mathlib

/-!
# Verification of the ESP32 Smart Captive Portal core

Shallow embedding of the two core components of the firmware:

* the **Connectivity State Machine** (`WiFiManager` in `src/wifi_manager.cpp`):
  mode switching between client mode and access-point mode, credential
  persistence, bounded reconnection, captive-portal DNS service;
* the **Telemetry Engine** (`SensorManager` in `src/sensor_manager.cpp`):
  bounded history ring, windowed statistics, motion sub-state, humidity
  generation pipeline.

External collaborators (radio link driver, preference store, random draws)
are modelled as explicit inputs; `float` arithmetic is embedded as exact
rational arithmetic (`ℚ`), `millis()` timestamps as `Nat`.
-/

namespace ESP32

/-! ## Configuration constants (`src/config.h`) -/

def WIFI_MAX_RECONNECT_ATTEMPTS : Nat := 5

def WIFI_RECONNECT_INTERVAL : Nat := 30000

def SENSOR_UPDATE_INTERVAL : Nat := 2000

def MOTION_DURATION_MS : Nat := 5000

def HUMIDITY_BASE : ℚ := 45

def HUMIDITY_VARIATION : ℚ := 20

/-! ## Connectivity State Machine (`src/wifi_manager.cpp`)

State fields mirror the private members of `WiFiManager`; the persisted
Preferences namespace is modelled as an optional ssid/password pair.
Driver calls and notification callbacks are recorded in output lists so
that frame conditions ("no link-driver call", "fires exactly once",
"disconnected before access-point-started") are statable. -/

structure CredStore where
  ssid : Option String
  password : Option String
deriving Repr, DecidableEq

structure WifiState where
  connectedSSID : String
  connectedPassword : String
  isConnected : Bool
  isAPActive : Bool
  dnsRunning : Bool
  shouldReconnect : Bool
  lastReconnectAttempt : Nat
  reconnectAttempts : Nat
  store : CredStore
deriving Repr, DecidableEq

/-- Notifications fired through the registered callbacks. -/
inductive WifiEvent
  | connected
  | disconnected
  | apStarted
deriving Repr, DecidableEq

/-- Calls made into the external radio link driver. -/
inductive DriverCall
  | beginClient (ssid password : String)
  | disconnect
  | startAP
  | stopAP
deriving Repr, DecidableEq

/-- `WiFiManager::WiFiManager()`: all-clear initial state. -/
def initialState : WifiState :=
  { connectedSSID := ""
    connectedPassword := ""
    isConnected := false
    isAPActive := false
    dnsRunning := false
    shouldReconnect := false
    lastReconnectAttempt := 0
    reconnectAttempts := 0
    store := ⟨none, none⟩ }

/-- `WiFiManager::_isValidSSID`: nonempty and at most 32 bytes. -/
def isValidSSID (ssid : String) : Bool :=
  0 < ssid.utf8ByteSize && ssid.utf8ByteSize ≤ 32

/-- `WiFiManager::startAccessPoint`: no-op when already active; otherwise
asks the driver to start the soft AP (`apOk` is the driver's result) and on
success marks the AP active, starts the captive-portal DNS service
(`_setupCaptivePortal`) and fires the AP-started callback. -/
def startAccessPoint (apOk : Bool) (s : WifiState) :
    WifiState × List WifiEvent × List DriverCall :=
  if s.isAPActive then (s, [], [])
  else if apOk then
    ({ s with isAPActive := true, dnsRunning := true }, [.apStarted], [.startAP])
  else (s, [], [.startAP])

/-- `WiFiManager::stopAccessPoint`: no-op when inactive; otherwise stops the
captive-portal DNS service (`_stopCaptivePortal`) and the soft AP. -/
def stopAccessPoint (s : WifiState) :
    WifiState × List WifiEvent × List DriverCall :=
  if s.isAPActive then
    ({ s with isAPActive := false, dnsRunning := false }, [], [.stopAP])
  else (s, [], [])

/-- `WiFiManager::_saveWiFiCredentials`: persist the in-memory pair. -/
def saveWiFiCredentials (s : WifiState) : WifiState :=
  { s with store := ⟨some s.connectedSSID, some s.connectedPassword⟩ }

/-- `WiFiManager::_clearWiFiCredentials`: remove both keys and blank the
in-memory pair. -/
def clearWiFiCredentials (s : WifiState) : WifiState :=
  { s with store := ⟨none, none⟩, connectedSSID := "", connectedPassword := "" }

/-- `WiFiManager::connectToWiFi`: reject invalid SSIDs; otherwise disconnect
an active session, overwrite the in-memory credentials, reset the attempt
counter, start the connection and busy-wait.  `linkOk` is the link status at
the end of the wait; `apOk` the driver's result for a fallback AP start.
Returns (success, state', events, driver calls). -/
def connectToWiFi (ssid password : String) (linkOk apOk : Bool) (s : WifiState) :
    Bool × WifiState × List WifiEvent × List DriverCall :=
  if !isValidSSID ssid then (false, s, [], [])
  else
    let calls0 : List DriverCall := if s.isConnected then [.disconnect] else []
    let s1 := { s with connectedSSID := ssid, connectedPassword := password,
                       reconnectAttempts := 0 }
    let calls1 := calls0 ++ [.beginClient ssid password]
    if linkOk then
      let s2 := saveWiFiCredentials
        { s1 with isConnected := true, shouldReconnect := true }
      let r3 := stopAccessPoint s2
      (true, r3.1, r3.2.1 ++ [.connected], calls1 ++ r3.2.2)
    else
      let r2 := if !s1.isAPActive then startAccessPoint apOk s1 else (s1, [], [])
      (false, r2.1, r2.2.1, calls1 ++ r2.2.2)

/-- `WiFiManager::disconnectWiFi`: when connected, disarm reconnection, drop
the link and fire the disconnected callback; idempotent otherwise. -/
def disconnectWiFi (s : WifiState) :
    WifiState × List WifiEvent × List DriverCall :=
  if s.isConnected then
    ({ s with shouldReconnect := false, isConnected := false },
     [.disconnected], [.disconnect])
  else (s, [], [])

/-- `WiFiManager::resetWiFiSettings`: disconnect, clear the credential
store, start the access point. -/
def resetWiFiSettings (apOk : Bool) (s : WifiState) :
    WifiState × List WifiEvent × List DriverCall :=
  let r1 := disconnectWiFi s
  let s2 := clearWiFiCredentials r1.1
  let r3 := startAccessPoint apOk s2
  (r3.1, r1.2.1 ++ r3.2.1, r1.2.2 ++ r3.2.2)

/-- `WiFiManager::_attemptReconnection`: when the reconnect interval has
elapsed, either perform one attempt with the stored in-memory credentials
(incrementing the counter), or — once the counter has reached the maximum —
disarm reconnection, zero the counter and start the access point. -/
def attemptReconnection (now : Nat) (apOk : Bool) (s : WifiState) :
    WifiState × List WifiEvent × List DriverCall :=
  if WIFI_RECONNECT_INTERVAL ≤ now - s.lastReconnectAttempt then
    if s.reconnectAttempts < WIFI_MAX_RECONNECT_ATTEMPTS then
      ({ s with reconnectAttempts := s.reconnectAttempts + 1,
                lastReconnectAttempt := now },
       [], [.disconnect, .beginClient s.connectedSSID s.connectedPassword])
    else
      startAccessPoint apOk
        { s with shouldReconnect := false, reconnectAttempts := 0 }
  else (s, [], [])

/-- `WiFiManager::_handleWiFiEvents`: detect an unexpected loss of the
client link, fire the disconnected callback and, when reconnection is
armed, stamp the reconnection timer. -/
def handleWiFiEvents (now : Nat) (linkBefore : Bool) (s : WifiState) :
    WifiState × List WifiEvent :=
  if s.isConnected && !linkBefore then
    ({ s with isConnected := false,
              lastReconnectAttempt :=
                if s.shouldReconnect then now else s.lastReconnectAttempt },
     [WifiEvent.disconnected])
  else (s, [])

/-- `WiFiManager::_updateConnectionStatus`: promote an externally
established link to connected, resetting the attempt counter and firing the
connected callback. -/
def updateConnectionStatus (linkAfter : Bool) (s : WifiState) :
    WifiState × List WifiEvent :=
  if linkAfter && !s.isConnected then
    ({ s with isConnected := true, reconnectAttempts := 0 },
     [WifiEvent.connected])
  else (s, [])

/-- `WiFiManager::handleClient` (the per-loop tick): service the DNS
resolver, detect loss of the link (`_handleWiFiEvents`), attempt
reconnection when armed, and promote an externally established link to
connected (`_updateConnectionStatus`).  `linkBefore`/`linkAfter` are the
link status at the two `WiFi.status()` reads. -/
def handleClient (now : Nat) (linkBefore linkAfter apOk : Bool) (s : WifiState) :
    WifiState × List WifiEvent × List DriverCall :=
  let r1 := handleWiFiEvents now linkBefore s
  let r2 :=
    if r1.1.shouldReconnect && !r1.1.isConnected then
      attemptReconnection now apOk r1.1
    else (r1.1, [], [])
  let r3 := updateConnectionStatus linkAfter r2.1
  (r3.1, r1.2 ++ r2.2.1 ++ r3.2, r2.2.2)

/-! ## Telemetry Engine (`src/sensor_manager.cpp`) -/

/-- `SensorReading` (`src/sensor_manager.h`): one immutable sample. -/
structure SensorReading where
  temperature : ℚ
  humidity : ℚ
  pressure : ℚ
  lightLevel : ℚ
  motionDetected : Bool
  batteryLevel : ℚ
  timestamp : Nat
deriving Repr, DecidableEq

/-- The `while (_history.size() > _maxHistorySize) _history.erase(_history.begin())`
loop shared by `_addToHistory` and `setHistorySize`: drop from the front
until the size bound holds. -/
def trimOldest (cap : Nat) : List SensorReading → List SensorReading
  | [] => []
  | r :: rest => if cap < (r :: rest).length then trimOldest cap rest else r :: rest

/-- `SensorManager::_addToHistory`: append the reading, then enforce the
size limit by evicting from the front. -/
def addToHistory (cap : Nat) (history : List SensorReading) (r : SensorReading) :
    List SensorReading :=
  trimOldest cap (history ++ [r])

/-- `SensorManager::setHistorySize`: floor the new capacity at 10, then trim
the oldest entries while the history exceeds it.  Returns (capacity', history'). -/
def setHistorySize (n : Nat) (_cap : Nat) (history : List SensorReading) :
    Nat × List SensorReading :=
  let cap' := max n 10
  (cap', trimOldest cap' history)

/-- `SensorStats` (`src/sensor_manager.h`), restricted to the per-channel
aggregate fields recomputed by `_calculateStatistics`. -/
structure SensorStats where
  minTemperature : ℚ
  maxTemperature : ℚ
  avgTemperature : ℚ
  minHumidity : ℚ
  maxHumidity : ℚ
  avgHumidity : ℚ
  minPressure : ℚ
  maxPressure : ℚ
  avgPressure : ℚ
  minLightLevel : ℚ
  maxLightLevel : ℚ
  avgLightLevel : ℚ
deriving Repr, DecidableEq

/-- The accumulator of `_calculateStatistics`' scan: running min/max per
channel plus running sums. -/
structure StatsAcc where
  minT : ℚ
  maxT : ℚ
  sumT : ℚ
  minH : ℚ
  maxH : ℚ
  sumH : ℚ
  minP : ℚ
  maxP : ℚ
  sumP : ℚ
  minL : ℚ
  maxL : ℚ
  sumL : ℚ
deriving Repr, DecidableEq

/-- One iteration of the `for (const auto& reading : _history)` loop in
`_calculateStatistics`. -/
def statsStep (a : StatsAcc) (r : SensorReading) : StatsAcc :=
  { minT := min a.minT r.temperature
    maxT := max a.maxT r.temperature
    sumT := a.sumT + r.temperature
    minH := min a.minH r.humidity
    maxH := max a.maxH r.humidity
    sumH := a.sumH + r.humidity
    minP := min a.minP r.pressure
    maxP := max a.maxP r.pressure
    sumP := a.sumP + r.pressure
    minL := min a.minL r.lightLevel
    maxL := max a.maxL r.lightLevel
    sumL := a.sumL + r.lightLevel }

/-- `SensorManager::_calculateStatistics`: `none` when the history is empty
(the code returns early, leaving the stats stale); otherwise seed the
min/max fields from `_history[0]`, scan the whole history, and divide the
sums by the element count. -/
def calculateStatistics (history : List SensorReading) : Option SensorStats :=
  match history with
  | [] => none
  | r0 :: _ =>
    let init : StatsAcc :=
      { minT := r0.temperature, maxT := r0.temperature, sumT := 0
        minH := r0.humidity, maxH := r0.humidity, sumH := 0
        minP := r0.pressure, maxP := r0.pressure, sumP := 0
        minL := r0.lightLevel, maxL := r0.lightLevel, sumL := 0 }
    let a := history.foldl statsStep init
    let count : ℚ := (history.length : ℚ)
    some
      { minTemperature := a.minT, maxTemperature := a.maxT
        avgTemperature := a.sumT / count
        minHumidity := a.minH, maxHumidity := a.maxH
        avgHumidity := a.sumH / count
        minPressure := a.minP, maxPressure := a.maxP
        avgPressure := a.sumP / count
        minLightLevel := a.minL, maxLightLevel := a.maxL
        avgLightLevel := a.sumL / count }

/-! ### Motion sub-state (`SensorManager::update` / `_updateMotionDetection`)

The Bernoulli draw inside `_shouldTriggerMotion` (whose body is not part of
the sources) is modelled as the per-tick Boolean input `trigger`; every
property below quantifies over its outcome. -/

structure MotionState where
  motionActive : Bool
  motionStartTime : Nat
  lastMotionEvent : Nat
  motionEventCount : Nat
  lastUpdate : Nat
  motionDetected : Bool
deriving Repr, DecidableEq

/-- `SensorManager::_updateMotionDetection`: a trial is evaluated only when
motion is not already active; a positive trial starts the window at `now`,
stamps the event time and increments the lifetime counter.  The current
reading's flag then mirrors the active bit. -/
def updateMotionDetection (now : Nat) (trigger : Bool) (s : MotionState) :
    MotionState :=
  let s1 :=
    if !s.motionActive && trigger then
      { s with motionActive := true, motionStartTime := now,
               lastMotionEvent := now, motionEventCount := s.motionEventCount + 1 }
    else s
  { s1 with motionDetected := s1.motionActive }

/-- The motion-relevant part of `SensorManager::update`: the trial runs only
on ticks where the update interval has elapsed; the auto-clear check runs on
every tick and clears motion once the fixed duration has elapsed since the
window started. -/
def sensorTick (now : Nat) (trigger : Bool) (s : MotionState) : MotionState :=
  let s1 :=
    if SENSOR_UPDATE_INTERVAL ≤ now - s.lastUpdate then
      { updateMotionDetection now trigger s with lastUpdate := now }
    else s
  if s1.motionActive && MOTION_DURATION_MS ≤ now - s1.motionStartTime then
    { s1 with motionActive := false, motionDetected := false }
  else s1

/-! ### Humidity pipeline (`SensorManager::_updateHumidity`) -/

/-- Arduino `constrain(amt, low, high)`. -/
def constrain (x lo hi : ℚ) : ℚ :=
  if x < lo then lo else if hi < x then hi else x

/-- Modelled from the spec: `SensorManager::_generateSensorValue` is missing
from the sources (the file is truncated); per §4.2 the persistent trend is
nudged by a bounded random `delta` and the reported value is `base + trend`
clamped to the channel's variation range.  Returns (value, trend'). -/
def generateSensorValue (base variation trend delta : ℚ) : ℚ × ℚ :=
  let trend' := trend + delta
  (constrain (base + trend') (base - variation) (base + variation), trend')

/-- Modelled from the spec: `SensorManager::_applyNoise` is missing from the
sources (the file is truncated); per §4.2 an independent small-magnitude
noise term is added on top.  The draw is modelled as the input `noise`,
bounded by the noise level where a property needs it. -/
def applyNoise (value noise : ℚ) : ℚ :=
  value + noise

/-- `SensorManager::_updateHumidity`: random-walk value, plus calibration
offset, constrained to [0, 100], then noise (level 0.5) applied on top.
Returns (reported humidity, trend'). -/
def updateHumidity (trend delta offset noise : ℚ) : ℚ × ℚ :=
  let r := generateSensorValue HUMIDITY_BASE HUMIDITY_VARIATION trend delta
  let v1 := r.1 + offset
  let v2 := constrain v1 0 100
  (applyNoise v2 noise, r.2)

/-! ## Helper lemmas -/

theorem isValidSSID_false {ssid : String}
    (h : ssid.utf8ByteSize = 0 ∨ 32 < ssid.utf8ByteSize) :
    isValidSSID ssid = false := by
  simp only [isValidSSID, Bool.and_eq_false_imp, decide_eq_false_iff_not, not_le,
    decide_eq_true_eq]
  omega

theorem startAccessPoint_dns_inv (apOk : Bool) (s : WifiState)
    (h : s.dnsRunning = s.isAPActive) :
    (startAccessPoint apOk s).1.dnsRunning = (startAccessPoint apOk s).1.isAPActive := by
  unfold startAccessPoint
  split <;> [skip; split] <;> simp [h]

theorem stopAccessPoint_dns_inv (s : WifiState)
    (h : s.dnsRunning = s.isAPActive) :
    (stopAccessPoint s).1.dnsRunning = (stopAccessPoint s).1.isAPActive := by
  unfold stopAccessPoint
  split <;> simp [h]

theorem attemptReconnection_dns_inv (now : Nat) (apOk : Bool) (s : WifiState)
    (h : s.dnsRunning = s.isAPActive) :
    (attemptReconnection now apOk s).1.dnsRunning =
      (attemptReconnection now apOk s).1.isAPActive := by
  unfold attemptReconnection
  split
  · split
    · simpa using h
    · exact startAccessPoint_dns_inv apOk _ (by simpa using h)
  · exact h

theorem handleWiFiEvents_dns_inv (now : Nat) (linkBefore : Bool) (s : WifiState)
    (h : s.dnsRunning = s.isAPActive) :
    (handleWiFiEvents now linkBefore s).1.dnsRunning =
      (handleWiFiEvents now linkBefore s).1.isAPActive := by
  unfold handleWiFiEvents
  split <;> simp [h]

theorem updateConnectionStatus_dns_inv (linkAfter : Bool) (s : WifiState)
    (h : s.dnsRunning = s.isAPActive) :
    (updateConnectionStatus linkAfter s).1.dnsRunning =
      (updateConnectionStatus linkAfter s).1.isAPActive := by
  unfold updateConnectionStatus
  split <;> simp [h]

theorem handleClient_dns_inv (now : Nat) (linkBefore linkAfter apOk : Bool)
    (s : WifiState) (h : s.dnsRunning = s.isAPActive) :
    (handleClient now linkBefore linkAfter apOk s).1.dnsRunning =
      (handleClient now linkBefore linkAfter apOk s).1.isAPActive := by
  unfold handleClient
  apply updateConnectionStatus_dns_inv
  have h1 := handleWiFiEvents_dns_inv now linkBefore s h
  split
  · exact attemptReconnection_dns_inv now apOk _ h1
  · exact h1

theorem connectToWiFi_dns_inv (ssid password : String) (linkOk apOk : Bool)
    (s : WifiState) (h : s.dnsRunning = s.isAPActive) :
    (connectToWiFi ssid password linkOk apOk s).2.1.dnsRunning =
      (connectToWiFi ssid password linkOk apOk s).2.1.isAPActive := by
  by_cases hv : isValidSSID ssid = true <;>
    by_cases hl : linkOk = true <;>
    by_cases hap : s.isAPActive = true <;>
    cases apOk <;>
    simp_all [connectToWiFi, saveWiFiCredentials, stopAccessPoint,
      startAccessPoint]

theorem disconnectWiFi_dns_inv (s : WifiState)
    (h : s.dnsRunning = s.isAPActive) :
    (disconnectWiFi s).1.dnsRunning = (disconnectWiFi s).1.isAPActive := by
  unfold disconnectWiFi
  split <;> simp [h]

theorem resetWiFiSettings_dns_inv (apOk : Bool) (s : WifiState)
    (h : s.dnsRunning = s.isAPActive) :
    (resetWiFiSettings apOk s).1.dnsRunning =
      (resetWiFiSettings apOk s).1.isAPActive := by
  by_cases hc : s.isConnected = true <;> by_cases hap : s.isAPActive = true <;>
    cases apOk <;>
    simp_all [resetWiFiSettings, disconnectWiFi, clearWiFiCredentials,
      startAccessPoint]

/-! ## Claims about the Connectivity State Machine -/

/-- **C6**: for every ssid whose byte length is 0 or greater than 32 and
every password, `connectToWiFi` returns failure and has no side effects:
the state is unchanged, no notification fires, no driver call is made
(hence no credential write). -/
theorem invalid_ssid_rejected (s : WifiState) (ssid password : String)
    (linkOk apOk : Bool)
    (h : ssid.utf8ByteSize = 0 ∨ 32 < ssid.utf8ByteSize) :
    connectToWiFi ssid password linkOk apOk s = (false, s, [], []) := by
  simp [connectToWiFi, isValidSSID_false h]

/-- Witness for C6 at `ssid = ""`. -/
theorem invalid_ssid_rejected_witness :
    ("".utf8ByteSize = 0 ∨ 32 < "".utf8ByteSize) ∧
      connectToWiFi "" "x" true true initialState = (false, initialState, [], []) :=
  ⟨Or.inl rfl,
    invalid_ssid_rejected initialState "" "x" true true (Or.inl rfl)⟩

/-- **C5 (counterexample)**: a validated `connectToWiFi` that fails while
the machine is connected as a client returns failure yet leaves the
connected flag set (the failure path of `connectToWiFi` never clears
`_isConnected`), with the freshly started access point running alongside
it: the machine does not remain in — or enter — access-point-only mode, so
the claim's failure branch is false.  Concretely: connect to "home"
successfully, then attempt "other" with a link that fails. -/
theorem failed_connect_not_ap_only_when_connected :
    ((connectToWiFi "other" "pass1234" false true
        (connectToWiFi "home" "secret12" true true initialState).2.1).1
      = false) ∧
    ((connectToWiFi "other" "pass1234" false true
        (connectToWiFi "home" "secret12" true true initialState).2.1).2.1.isConnected
      = true) ∧
    ((connectToWiFi "other" "pass1234" false true
        (connectToWiFi "home" "secret12" true true initialState).2.1).2.1.isAPActive
      = true) := by
  decide

/-- **C5 (amended)**: for every validated `connectToWiFi` call: on success
the credentials are persisted to the store, the access point and its DNS
service are torn down, and the connected notification fires exactly once;
on failure no credentials are persisted, no connected notification fires,
the access point is started if not already active (given a successful
driver start), and the connected flag is left exactly as it was — so the
machine is in access-point-only mode afterwards only when it was not
connected when called; a failed connect issued while connected keeps the
stale connected flag set until a later tick detects the lost link. -/
theorem connect_success_failure_contract (s : WifiState) (ssid password : String)
    (apOk : Bool) (hv : isValidSSID ssid = true)
    (hinv : s.dnsRunning = s.isAPActive) :
    ((connectToWiFi ssid password true apOk s).1 = true ∧
     (connectToWiFi ssid password true apOk s).2.1.store =
       ⟨some ssid, some password⟩ ∧
     (connectToWiFi ssid password true apOk s).2.1.isAPActive = false ∧
     (connectToWiFi ssid password true apOk s).2.1.dnsRunning = false ∧
     (connectToWiFi ssid password true apOk s).2.2.1 = [WifiEvent.connected]) ∧
    ((connectToWiFi ssid password false true s).1 = false ∧
     (connectToWiFi ssid password false true s).2.1.store = s.store ∧
     (connectToWiFi ssid password false true s).2.1.isAPActive = true ∧
     (connectToWiFi ssid password false true s).2.1.isConnected =
       s.isConnected ∧
     (s.isConnected = false →
       (connectToWiFi ssid password false true s).2.1.isConnected = false ∧
       (connectToWiFi ssid password false true s).2.1.isAPActive = true) ∧
     (connectToWiFi ssid password false true s).2.2.1 =
       if s.isAPActive = true then [] else [WifiEvent.apStarted]) := by
  by_cases hap : s.isAPActive = true <;>
    simp_all [connectToWiFi, hv, saveWiFiCredentials, stopAccessPoint,
      startAccessPoint]

/-- Witness for C5 at a concrete state and credential pair. -/
theorem connect_success_failure_contract_witness :
    (isValidSSID "home" = true ∧
       (startAccessPoint true initialState).1.dnsRunning =
         (startAccessPoint true initialState).1.isAPActive) ∧
    ((connectToWiFi "home" "secret12" true true
        (startAccessPoint true initialState).1).1 = true ∧
     (connectToWiFi "home" "secret12" true true
        (startAccessPoint true initialState).1).2.1.store =
       ⟨some "home", some "secret12"⟩ ∧
     (connectToWiFi "home" "secret12" true true
        (startAccessPoint true initialState).1).2.1.isAPActive = false ∧
     (connectToWiFi "home" "secret12" true true
        (startAccessPoint true initialState).1).2.1.dnsRunning = false ∧
     (connectToWiFi "home" "secret12" true true
        (startAccessPoint true initialState).1).2.2.1 = [WifiEvent.connected]) ∧
    ((connectToWiFi "home" "secret12" false true
        (startAccessPoint true initialState).1).1 = false ∧
     (connectToWiFi "home" "secret12" false true
        (startAccessPoint true initialState).1).2.1.store =
       (startAccessPoint true initialState).1.store ∧
     (connectToWiFi "home" "secret12" false true
        (startAccessPoint true initialState).1).2.1.isAPActive = true ∧
     (connectToWiFi "home" "secret12" false true
        (startAccessPoint true initialState).1).2.1.isConnected =
       (startAccessPoint true initialState).1.isConnected ∧
     ((startAccessPoint true initialState).1.isConnected = false →
       (connectToWiFi "home" "secret12" false true
          (startAccessPoint true initialState).1).2.1.isConnected = false ∧
       (connectToWiFi "home" "secret12" false true
          (startAccessPoint true initialState).1).2.1.isAPActive = true) ∧
     (connectToWiFi "home" "secret12" false true
        (startAccessPoint true initialState).1).2.2.1 =
       if (startAccessPoint true initialState).1.isAPActive = true then []
       else [WifiEvent.apStarted]) :=
  ⟨⟨by decide, by decide⟩,
    (connect_success_failure_contract (startAccessPoint true initialState).1
      "home" "secret12" true (by decide) (by decide)).1,
    (connect_success_failure_contract (startAccessPoint true initialState).1
      "home" "secret12" true (by decide) (by decide)).2⟩

/-- **C1 (counterexample)**: the state reached from a cold boot with no
stored credentials (access point and DNS up) by a validated `connectToWiFi`
call whose busy-wait times out, followed by one `handleClient` tick at
which the link — begun by that call — reports connected, has the machine
connected as a client while the DNS service is still running: the claimed
invariant "in no reachable state is the DNS service running while the
machine is ConnectedClient" is false. -/
theorem dns_running_while_connected_reachable :
    ((handleClient 0 false true true
        (connectToWiFi "mynet" "pw123456" false true
          (startAccessPoint true initialState).1).2.1).1.isConnected = true) ∧
    ((handleClient 0 false true true
        (connectToWiFi "mynet" "pw123456" false true
          (startAccessPoint true initialState).1).2.1).1.dnsRunning = true) ∧
    ((handleClient 0 false true true
        (connectToWiFi "mynet" "pw123456" false true
          (startAccessPoint true initialState).1).2.1).1.isAPActive = true) := by
  decide

/-- **C1 (amended)**: the DNS service runs if and only if the access point
is active — every operation preserves `dnsRunning = isAPActive` — and a
successful explicit `connectToWiFi` tears both down; but a connection
promoted by `handleClient`'s `_updateConnectionStatus` does not tear down
the access point or its DNS service: when reconnection is disarmed, a tick
leaves both flags untouched, whatever the link reports. -/
theorem dns_service_coupled_to_ap (s : WifiState) (ssid password : String)
    (now : Nat) (linkBefore linkAfter linkOk apOk : Bool)
    (hinv : s.dnsRunning = s.isAPActive) :
    ((startAccessPoint apOk s).1.dnsRunning =
       (startAccessPoint apOk s).1.isAPActive) ∧
    ((stopAccessPoint s).1.dnsRunning = (stopAccessPoint s).1.isAPActive) ∧
    ((connectToWiFi ssid password linkOk apOk s).2.1.dnsRunning =
       (connectToWiFi ssid password linkOk apOk s).2.1.isAPActive) ∧
    ((disconnectWiFi s).1.dnsRunning = (disconnectWiFi s).1.isAPActive) ∧
    ((resetWiFiSettings apOk s).1.dnsRunning =
       (resetWiFiSettings apOk s).1.isAPActive) ∧
    ((handleClient now linkBefore linkAfter apOk s).1.dnsRunning =
       (handleClient now linkBefore linkAfter apOk s).1.isAPActive) ∧
    (isValidSSID ssid = true →
      (connectToWiFi ssid password true apOk s).2.1.isAPActive = false ∧
      (connectToWiFi ssid password true apOk s).2.1.dnsRunning = false) ∧
    (s.shouldReconnect = false →
      (handleClient now linkBefore linkAfter apOk s).1.isAPActive = s.isAPActive ∧
      (handleClient now linkBefore linkAfter apOk s).1.dnsRunning = s.dnsRunning) := by
  refine ⟨startAccessPoint_dns_inv apOk s hinv, stopAccessPoint_dns_inv s hinv,
    connectToWiFi_dns_inv ssid password linkOk apOk s hinv,
    disconnectWiFi_dns_inv s hinv, resetWiFiSettings_dns_inv apOk s hinv,
    handleClient_dns_inv now linkBefore linkAfter apOk s hinv, ?_, ?_⟩
  · intro hv
    by_cases hap : s.isAPActive = true <;>
      simp_all [connectToWiFi, saveWiFiCredentials, stopAccessPoint]
  · intro hsr
    by_cases hic : s.isConnected = true <;>
      by_cases hlb : linkBefore = true <;>
      by_cases hla : linkAfter = true <;>
      simp_all [handleClient, handleWiFiEvents, updateConnectionStatus]

/-- Witness for C1 (amended) at a concrete state. -/
theorem dns_service_coupled_to_ap_witness :
    (initialState.dnsRunning = initialState.isAPActive) ∧
    (((startAccessPoint true initialState).1.dnsRunning =
        (startAccessPoint true initialState).1.isAPActive) ∧
     ((stopAccessPoint initialState).1.dnsRunning =
        (stopAccessPoint initialState).1.isAPActive) ∧
     ((connectToWiFi "home" "secret12" true true initialState).2.1.dnsRunning =
        (connectToWiFi "home" "secret12" true true initialState).2.1.isAPActive) ∧
     ((disconnectWiFi initialState).1.dnsRunning =
        (disconnectWiFi initialState).1.isAPActive) ∧
     ((resetWiFiSettings true initialState).1.dnsRunning =
        (resetWiFiSettings true initialState).1.isAPActive) ∧
     ((handleClient 5 false false true initialState).1.dnsRunning =
        (handleClient 5 false false true initialState).1.isAPActive) ∧
     (isValidSSID "home" = true →
       (connectToWiFi "home" "secret12" true true initialState).2.1.isAPActive
           = false ∧
       (connectToWiFi "home" "secret12" true true initialState).2.1.dnsRunning
           = false) ∧
     (initialState.shouldReconnect = false →
       (handleClient 5 false false true initialState).1.isAPActive =
           initialState.isAPActive ∧
       (handleClient 5 false false true initialState).1.dnsRunning =
           initialState.dnsRunning)) :=
  ⟨rfl, dns_service_coupled_to_ap initialState "home" "secret12" 5
    false false true true rfl⟩

/-- The armed-reconnection state used to exercise the reconnection policy:
stored credentials present, reconnection armed, link lost, no access
point. -/
def armedState : WifiState :=
  { connectedSSID := "net"
    connectedPassword := "pw"
    isConnected := false
    isAPActive := false
    dnsRunning := false
    shouldReconnect := true
    lastReconnectAttempt := 0
    reconnectAttempts := 0
    store := ⟨some "net", some "pw"⟩ }

/-- **C2 (counterexample)**: five ticks spaced by the reconnect interval,
each with the link down, perform the five (= `maxAttempts`) reconnection
attempts; at the tick on which `attemptsUsed` reaches `maxAttempts` the
machine has *not* disarmed auto-reconnect and has *not* started the access
point, contradicting "as soon as attemptsUsed equals maxAttempts the
machine disarms auto-reconnect and starts the access point". -/
theorem max_attempts_not_disarmed_same_tick :
    ((handleClient 150000 false false true
        (handleClient 120000 false false true
          (handleClient 90000 false false true
            (handleClient 60000 false false true
              (handleClient 30000 false false true armedState).1).1).1).1).1.reconnectAttempts
        = WIFI_MAX_RECONNECT_ATTEMPTS) ∧
    ((handleClient 150000 false false true
        (handleClient 120000 false false true
          (handleClient 90000 false false true
            (handleClient 60000 false false true
              (handleClient 30000 false false true armedState).1).1).1).1).1.shouldReconnect
        = true) ∧
    ((handleClient 150000 false false true
        (handleClient 120000 false false true
          (handleClient 90000 false false true
            (handleClient 60000 false false true
              (handleClient 30000 false false true armedState).1).1).1).1).1.isAPActive
        = false) := by
  decide

/-- **C2 (amended)**: on an armed, disconnected, interval-elapsed tick with
the link down: while `attemptsUsed < maxAttempts` the tick performs exactly
one reconnection attempt with the stored credentials and increments
`attemptsUsed`, leaving reconnection armed and the access point untouched;
once `attemptsUsed` has reached `maxAttempts`, the *next* interval-elapsed
tick performs no attempt, disarms auto-reconnect, resets `attemptsUsed` to
0 and starts the access point — so AccessPointOnly with auto-reconnect
disarmed is reached one further interval after the final failed attempt. -/
theorem reconnection_policy_behavior (s : WifiState) (now : Nat) (apOk : Bool)
    (hnc : s.isConnected = false) (hsr : s.shouldReconnect = true)
    (helapsed : WIFI_RECONNECT_INTERVAL ≤ now - s.lastReconnectAttempt) :
    (s.reconnectAttempts < WIFI_MAX_RECONNECT_ATTEMPTS →
      (handleClient now false false apOk s).1.reconnectAttempts =
          s.reconnectAttempts + 1 ∧
      (handleClient now false false apOk s).1.lastReconnectAttempt = now ∧
      (handleClient now false false apOk s).1.shouldReconnect = true ∧
      (handleClient now false false apOk s).1.isAPActive = s.isAPActive ∧
      (handleClient now false false apOk s).2.2 =
        [DriverCall.disconnect,
         DriverCall.beginClient s.connectedSSID s.connectedPassword]) ∧
    (WIFI_MAX_RECONNECT_ATTEMPTS ≤ s.reconnectAttempts →
      (handleClient now false false apOk s).1.shouldReconnect = false ∧
      (handleClient now false false apOk s).1.reconnectAttempts = 0 ∧
      (handleClient now false false apOk s).1.isAPActive =
        (s.isAPActive || apOk) ∧
      (handleClient now false false apOk s).2.2 =
        if s.isAPActive = true then [] else [DriverCall.startAP]) := by
  constructor
  · intro hlt
    simp_all [handleClient, handleWiFiEvents, updateConnectionStatus,
      attemptReconnection, helapsed, hlt]
  · intro hge
    have hnlt : ¬ s.reconnectAttempts < WIFI_MAX_RECONNECT_ATTEMPTS := by omega
    by_cases hap : s.isAPActive = true <;> cases apOk <;>
      simp_all [handleClient, handleWiFiEvents, updateConnectionStatus,
        attemptReconnection, startAccessPoint, helapsed, if_neg hnlt]

/-- Witness for C2 (amended) at `armedState` after its five failed
attempts. -/
theorem reconnection_policy_behavior_witness :
    ((handleClient 150000 false false true
        (handleClient 120000 false false true
          (handleClient 90000 false false true
            (handleClient 60000 false false true
              (handleClient 30000 false false true armedState).1).1).1).1).1.isConnected
        = false) ∧
    ((handleClient 150000 false false true
        (handleClient 120000 false false true
          (handleClient 90000 false false true
            (handleClient 60000 false false true
              (handleClient 30000 false false true armedState).1).1).1).1).1.shouldReconnect
        = true) ∧
    (WIFI_RECONNECT_INTERVAL ≤ 180000 -
      (handleClient 150000 false false true
        (handleClient 120000 false false true
          (handleClient 90000 false false true
            (handleClient 60000 false false true
              (handleClient 30000 false false true armedState).1).1).1).1).1.lastReconnectAttempt) ∧
    (WIFI_MAX_RECONNECT_ATTEMPTS ≤
      (handleClient 150000 false false true
        (handleClient 120000 false false true
          (handleClient 90000 false false true
            (handleClient 60000 false false true
              (handleClient 30000 false false true armedState).1).1).1).1).1.reconnectAttempts →
      (handleClient 180000 false false true
        (handleClient 150000 false false true
          (handleClient 120000 false false true
            (handleClient 90000 false false true
              (handleClient 60000 false false true
                (handleClient 30000 false false true armedState).1).1).1).1).1).1.shouldReconnect
          = false ∧
      (handleClient 180000 false false true
        (handleClient 150000 false false true
          (handleClient 120000 false false true
            (handleClient 90000 false false true
              (handleClient 60000 false false true
                (handleClient 30000 false false true armedState).1).1).1).1).1).1.reconnectAttempts
          = 0 ∧
      (handleClient 180000 false false true
        (handleClient 150000 false false true
          (handleClient 120000 false false true
            (handleClient 90000 false false true
              (handleClient 60000 false false true
                (handleClient 30000 false false true armedState).1).1).1).1).1).1.isAPActive
          = ((handleClient 150000 false false true
              (handleClient 120000 false false true
                (handleClient 90000 false false true
                  (handleClient 60000 false false true
                    (handleClient 30000 false false true armedState).1).1).1).1).1.isAPActive
             || true) ∧
      (handleClient 180000 false false true
        (handleClient 150000 false false true
          (handleClient 120000 false false true
            (handleClient 90000 false false true
              (handleClient 60000 false false true
                (handleClient 30000 false false true armedState).1).1).1).1).1).2.2 =
        if (handleClient 150000 false false true
              (handleClient 120000 false false true
                (handleClient 90000 false false true
                  (handleClient 60000 false false true
                    (handleClient 30000 false false true armedState).1).1).1).1).1.isAPActive
            = true then []
        else [DriverCall.startAP]) :=
  ⟨by decide, by decide, by decide,
    (reconnection_policy_behavior _ 180000 true (by decide) (by decide)
      (by decide)).2⟩

/-- **C7**: for every prior state, `resetWiFiSettings` leaves the persisted
store without the ssid and password keys, and the access point is active
(already active, or freshly started when the driver start succeeds); when
called while connected as a client (with the access point down, as after a
normal connect), the disconnected notification fires before the
access-point-started notification. -/
theorem reset_settings_contract (s : WifiState) (apOk : Bool) :
    (resetWiFiSettings apOk s).1.store.ssid = none ∧
    (resetWiFiSettings apOk s).1.store.password = none ∧
    (resetWiFiSettings apOk s).1.isAPActive = (s.isAPActive || apOk) ∧
    (s.isConnected = true → s.isAPActive = false → apOk = true →
      (resetWiFiSettings apOk s).2.1 =
        [WifiEvent.disconnected, WifiEvent.apStarted]) := by
  by_cases hc : s.isConnected = true <;> by_cases hap : s.isAPActive = true <;>
    cases apOk <;>
    simp_all [resetWiFiSettings, disconnectWiFi, clearWiFiCredentials,
      startAccessPoint]

/-- Witness for C7: reset while connected as a client. -/
theorem reset_settings_contract_witness :
    ((resetWiFiSettings true
        (connectToWiFi "home" "secret12" true true initialState).2.1).1.store.ssid
        = none) ∧
    ((resetWiFiSettings true
        (connectToWiFi "home" "secret12" true true initialState).2.1).1.store.password
        = none) ∧
    ((resetWiFiSettings true
        (connectToWiFi "home" "secret12" true true initialState).2.1).1.isAPActive
        = ((connectToWiFi "home" "secret12" true true initialState).2.1.isAPActive
           || true)) ∧
    ((connectToWiFi "home" "secret12" true true initialState).2.1.isConnected
        = true →
     (connectToWiFi "home" "secret12" true true initialState).2.1.isAPActive
        = false →
     true = true →
     (resetWiFiSettings true
        (connectToWiFi "home" "secret12" true true initialState).2.1).2.1 =
       [WifiEvent.disconnected, WifiEvent.apStarted]) :=
  reset_settings_contract
    (connectToWiFi "home" "secret12" true true initialState).2.1 true

/-- **C10**: a validated `connectToWiFi` call whose link attempt fails still
overwrites the in-memory credentials with the attempted pair and resets the
attempt counter, while the persisted store is untouched; every subsequent
automatic reconnection attempt therefore begins the link with the newly
attempted pair, not the persisted one. -/
theorem failed_connect_overwrites_memory_credentials (s : WifiState)
    (ssid password : String) (apOk apOk2 : Bool) (now : Nat)
    (hv : isValidSSID ssid = true) :
    (connectToWiFi ssid password false apOk s).1 = false ∧
    (connectToWiFi ssid password false apOk s).2.1.connectedSSID = ssid ∧
    (connectToWiFi ssid password false apOk s).2.1.connectedPassword = password ∧
    (connectToWiFi ssid password false apOk s).2.1.reconnectAttempts = 0 ∧
    (connectToWiFi ssid password false apOk s).2.1.store = s.store ∧
    (WIFI_RECONNECT_INTERVAL ≤
        now - (connectToWiFi ssid password false apOk s).2.1.lastReconnectAttempt →
      (attemptReconnection now apOk2
          (connectToWiFi ssid password false apOk s).2.1).2.2 =
        [DriverCall.disconnect, DriverCall.beginClient ssid password]) := by
  have hstate :
      (connectToWiFi ssid password false apOk s).2.1.connectedSSID = ssid ∧
      (connectToWiFi ssid password false apOk s).2.1.connectedPassword = password ∧
      (connectToWiFi ssid password false apOk s).2.1.reconnectAttempts = 0 ∧
      (connectToWiFi ssid password false apOk s).2.1.store = s.store ∧
      (connectToWiFi ssid password false apOk s).1 = false := by
    by_cases hap : s.isAPActive = true <;> cases apOk <;>
      simp_all [connectToWiFi, startAccessPoint]
  obtain ⟨h1, h2, h3, h4, h5⟩ := hstate
  refine ⟨h5, h1, h2, h3, h4, ?_⟩
  intro helapsed
  have hlt : (connectToWiFi ssid password false apOk s).2.1.reconnectAttempts <
      WIFI_MAX_RECONNECT_ATTEMPTS := by
    rw [h3]; decide
  simp [attemptReconnection, if_pos helapsed, if_pos hlt, h1, h2]

/-- Witness for C10 from the freshly booted access-point state. -/
theorem failed_connect_overwrites_memory_credentials_witness :
    (isValidSSID "newnet" = true) ∧
    ((connectToWiFi "newnet" "badpass1" false true
        (startAccessPoint true initialState).1).1 = false ∧
     (connectToWiFi "newnet" "badpass1" false true
        (startAccessPoint true initialState).1).2.1.connectedSSID = "newnet" ∧
     (connectToWiFi "newnet" "badpass1" false true
        (startAccessPoint true initialState).1).2.1.connectedPassword
        = "badpass1" ∧
     (connectToWiFi "newnet" "badpass1" false true
        (startAccessPoint true initialState).1).2.1.reconnectAttempts = 0 ∧
     (connectToWiFi "newnet" "badpass1" false true
        (startAccessPoint true initialState).1).2.1.store =
       (startAccessPoint true initialState).1.store ∧
     (WIFI_RECONNECT_INTERVAL ≤ 40000 -
        (connectToWiFi "newnet" "badpass1" false true
          (startAccessPoint true initialState).1).2.1.lastReconnectAttempt →
       (attemptReconnection 40000 true
          (connectToWiFi "newnet" "badpass1" false true
            (startAccessPoint true initialState).1).2.1).2.2 =
         [DriverCall.disconnect, DriverCall.beginClient "newnet" "badpass1"])) :=
  ⟨by decide,
    failed_connect_overwrites_memory_credentials
      (startAccessPoint true initialState).1 "newnet" "badpass1" true true 40000
      (by decide)⟩

/-! ## Claims about the Telemetry Engine -/

theorem trimOldest_length_le (cap : Nat) (l : List SensorReading) :
    (trimOldest cap l).length ≤ cap := by
  induction l with
  | nil => simp [trimOldest]
  | cons x xs ih =>
    unfold trimOldest
    split
    · exact ih
    · simpa using Nat.le_of_not_lt (by assumption)

theorem trimOldest_eq_drop (cap : Nat) (l : List SensorReading) :
    trimOldest cap l = l.drop (l.length - cap) := by
  induction l with
  | nil => simp [trimOldest]
  | cons x xs ih =>
    unfold trimOldest
    have hl : (x :: xs).length = xs.length + 1 := by simp
    split
    · rename_i hlt
      rw [ih]
      have h : (x :: xs).length - cap = (xs.length - cap) + 1 := by omega
      rw [h, List.drop_succ_cons]
    · rename_i hnlt
      have h : (x :: xs).length - cap = 0 := by omega
      rw [h, List.drop_zero]

/-- Sample readings used as concrete witnesses. -/
def reading1 : SensorReading :=
  { temperature := 20, humidity := 40, pressure := 1000, lightLevel := 50
    motionDetected := false, batteryLevel := 80, timestamp := 1000 }

def reading2 : SensorReading :=
  { temperature := 24, humidity := 60, pressure := 1020, lightLevel := 70
    motionDetected := true, batteryLevel := 79, timestamp := 2000 }

/-- **C3**: after `_addToHistory` the history length never exceeds the
capacity; appending to a full history evicts exactly the oldest entry
(insertion order = chronological order); and `setHistorySize n` sets the
capacity to `max n 10` and immediately trims the oldest entries down to the
new capacity. -/
theorem history_ring_buffer (cap n : Nat) (history : List SensorReading)
    (r : SensorReading) (hfull : history.length = cap) (hpos : 1 ≤ cap) :
    (∀ h : List SensorReading, (addToHistory cap h r).length ≤ cap) ∧
    addToHistory cap history r = history.tail ++ [r] ∧
    (setHistorySize n cap history).1 = max n 10 ∧
    (∀ h : List SensorReading,
      (setHistorySize n cap h).2 = h.drop (h.length - max n 10) ∧
      (setHistorySize n cap h).2.length ≤ max n 10) := by
  refine ⟨fun h => trimOldest_length_le cap _, ?_, rfl,
    fun h => ⟨trimOldest_eq_drop _ h, trimOldest_length_le _ h⟩⟩
  unfold addToHistory
  rw [trimOldest_eq_drop]
  have hlen : (history ++ [r]).length - cap = 1 := by
    simp only [List.length_append, List.length_singleton]
    omega
  rw [hlen]
  cases history with
  | nil => simp at hfull; omega
  | cons x xs => simp

/-- Witness for C3 with a full two-element history and capacity 2. -/
theorem history_ring_buffer_witness :
    ([reading1, reading2].length = 2 ∧ 1 ≤ 2) ∧
    ((∀ h : List SensorReading, (addToHistory 2 h reading2).length ≤ 2) ∧
     addToHistory 2 [reading1, reading2] reading2 =
       [reading1, reading2].tail ++ [reading2] ∧
     (setHistorySize 3 2 [reading1, reading2]).1 = max 3 10 ∧
     (∀ h : List SensorReading,
       (setHistorySize 3 2 h).2 = h.drop (h.length - max 3 10) ∧
       (setHistorySize 3 2 h).2.length ≤ max 3 10)) :=
  ⟨⟨rfl, by omega⟩,
    history_ring_buffer 2 3 [reading1, reading2] reading2 rfl (by omega)⟩

/-- **C8**: in every tick with motion enabled, the motion trial is evaluated
only when motion is not already active (ticks during the active window
never increment the lifetime counter); a positive eligible trial — update
interval elapsed, motion inactive, trial positive — increments the counter
exactly once and stamps both the event time and the window start; every
other tick leaves the counter unchanged; and motion is active after the
tick exactly when the post-trial window is active and the fixed duration
has not yet elapsed since that window started (auto-clear exactly at
expiry). -/
theorem motion_tick_contract (s : MotionState) (now : Nat) (trigger : Bool) :
    (s.motionActive = true →
      (sensorTick now trigger s).motionEventCount = s.motionEventCount) ∧
    ((SENSOR_UPDATE_INTERVAL ≤ now - s.lastUpdate ∧ s.motionActive = false ∧
        trigger = true) →
      (sensorTick now trigger s).motionEventCount = s.motionEventCount + 1 ∧
      (sensorTick now trigger s).lastMotionEvent = now ∧
      (sensorTick now trigger s).motionStartTime = now) ∧
    (¬(SENSOR_UPDATE_INTERVAL ≤ now - s.lastUpdate ∧ s.motionActive = false ∧
        trigger = true) →
      (sensorTick now trigger s).motionEventCount = s.motionEventCount) ∧
    ((sensorTick now trigger s).motionActive =
      (let afterTrial :=
        if SENSOR_UPDATE_INTERVAL ≤ now - s.lastUpdate then
          updateMotionDetection now trigger s
        else s
       afterTrial.motionActive &&
         !decide (MOTION_DURATION_MS ≤ now - afterTrial.motionStartTime))) := by
  simp only [sensorTick, updateMotionDetection]
  by_cases hel : SENSOR_UPDATE_INTERVAL ≤ now - s.lastUpdate <;>
    by_cases hma : s.motionActive = true <;>
    cases trigger <;>
    simp only [hel, hma, if_true, if_false, if_pos, if_neg, not_false_iff,
      Bool.not_true, Bool.not_false, Bool.and_true, Bool.and_false,
      Bool.true_and, Bool.false_and, ite_true, ite_false, not_true_eq_false,
      not_false_eq_true] <;>
    simp_all <;>
    split <;> simp_all

/-- Witness for C8: inactive motion, elapsed interval, positive trial. -/
theorem motion_tick_contract_witness :
    (({ motionActive := false, motionStartTime := 0, lastMotionEvent := 0,
        motionEventCount := 3, lastUpdate := 0,
        motionDetected := false } : MotionState).motionActive = true →
      (sensorTick 2000 true
        { motionActive := false, motionStartTime := 0, lastMotionEvent := 0,
          motionEventCount := 3, lastUpdate := 0,
          motionDetected := false }).motionEventCount = 3) ∧
    ((SENSOR_UPDATE_INTERVAL ≤ 2000 - 0 ∧ false = false ∧ true = true) →
      (sensorTick 2000 true
        { motionActive := false, motionStartTime := 0, lastMotionEvent := 0,
          motionEventCount := 3, lastUpdate := 0,
          motionDetected := false }).motionEventCount = 3 + 1 ∧
      (sensorTick 2000 true
        { motionActive := false, motionStartTime := 0, lastMotionEvent := 0,
          motionEventCount := 3, lastUpdate := 0,
          motionDetected := false }).lastMotionEvent = 2000 ∧
      (sensorTick 2000 true
        { motionActive := false, motionStartTime := 0, lastMotionEvent := 0,
          motionEventCount := 3, lastUpdate := 0,
          motionDetected := false }).motionStartTime = 2000) ∧
    (¬(SENSOR_UPDATE_INTERVAL ≤ 2000 - 0 ∧ false = false ∧ true = true) →
      (sensorTick 2000 true
        { motionActive := false, motionStartTime := 0, lastMotionEvent := 0,
          motionEventCount := 3, lastUpdate := 0,
          motionDetected := false }).motionEventCount = 3) ∧
    ((sensorTick 2000 true
        { motionActive := false, motionStartTime := 0, lastMotionEvent := 0,
          motionEventCount := 3, lastUpdate := 0,
          motionDetected := false }).motionActive =
      (let afterTrial :=
        if SENSOR_UPDATE_INTERVAL ≤ 2000 - 0 then
          updateMotionDetection 2000 true
            { motionActive := false, motionStartTime := 0, lastMotionEvent := 0,
              motionEventCount := 3, lastUpdate := 0, motionDetected := false }
        else
          { motionActive := false, motionStartTime := 0, lastMotionEvent := 0,
            motionEventCount := 3, lastUpdate := 0, motionDetected := false }
       afterTrial.motionActive &&
         !decide (MOTION_DURATION_MS ≤ 2000 - afterTrial.motionStartTime))) :=
  motion_tick_contract
    { motionActive := false, motionStartTime := 0, lastMotionEvent := 0,
      motionEventCount := 3, lastUpdate := 0, motionDetected := false }
    2000 true

theorem foldl_statsStep_fields (l : List SensorReading) (a : StatsAcc) :
    (l.foldl statsStep a).minT = (l.map (·.temperature)).foldl min a.minT ∧
    (l.foldl statsStep a).maxT = (l.map (·.temperature)).foldl max a.maxT ∧
    (l.foldl statsStep a).sumT = (l.map (·.temperature)).foldl (· + ·) a.sumT ∧
    (l.foldl statsStep a).minH = (l.map (·.humidity)).foldl min a.minH ∧
    (l.foldl statsStep a).maxH = (l.map (·.humidity)).foldl max a.maxH ∧
    (l.foldl statsStep a).sumH = (l.map (·.humidity)).foldl (· + ·) a.sumH ∧
    (l.foldl statsStep a).minP = (l.map (·.pressure)).foldl min a.minP ∧
    (l.foldl statsStep a).maxP = (l.map (·.pressure)).foldl max a.maxP ∧
    (l.foldl statsStep a).sumP = (l.map (·.pressure)).foldl (· + ·) a.sumP ∧
    (l.foldl statsStep a).minL = (l.map (·.lightLevel)).foldl min a.minL ∧
    (l.foldl statsStep a).maxL = (l.map (·.lightLevel)).foldl max a.maxL ∧
    (l.foldl statsStep a).sumL = (l.map (·.lightLevel)).foldl (· + ·) a.sumL := by
  induction l generalizing a with
  | nil => simp
  | cons x xs ih => simpa [statsStep] using ih (statsStep a x)

theorem foldl_min_le (l : List ℚ) (a : ℚ) :
    l.foldl min a ≤ a ∧ ∀ x ∈ l, l.foldl min a ≤ x := by
  induction l generalizing a with
  | nil => simp
  | cons y ys ih =>
    obtain ⟨h1, h2⟩ := ih (min a y)
    refine ⟨le_trans h1 (min_le_left a y), ?_⟩
    intro x hx
    rcases List.mem_cons.mp hx with rfl | hx
    · exact le_trans h1 (min_le_right a x)
    · exact h2 x hx

theorem foldl_min_mem (l : List ℚ) (a : ℚ) :
    l.foldl min a = a ∨ l.foldl min a ∈ l := by
  induction l generalizing a with
  | nil => simp
  | cons y ys ih =>
    rcases ih (min a y) with h | h
    · rcases min_cases a y with ⟨hm, _⟩ | ⟨hm, _⟩
      · left
        rw [List.foldl_cons, h, hm]
      · right
        rw [List.foldl_cons, h, hm]
        exact List.mem_cons_self y ys
    · right
      exact List.mem_cons_of_mem y h

theorem foldl_max_ge (l : List ℚ) (a : ℚ) :
    a ≤ l.foldl max a ∧ ∀ x ∈ l, x ≤ l.foldl max a := by
  induction l generalizing a with
  | nil => simp
  | cons y ys ih =>
    obtain ⟨h1, h2⟩ := ih (max a y)
    refine ⟨le_trans (le_max_left a y) h1, ?_⟩
    intro x hx
    rcases List.mem_cons.mp hx with rfl | hx
    · exact le_trans (le_max_right a x) h1
    · exact h2 x hx

theorem foldl_max_mem (l : List ℚ) (a : ℚ) :
    l.foldl max a = a ∨ l.foldl max a ∈ l := by
  induction l generalizing a with
  | nil => simp
  | cons y ys ih =>
    rcases ih (max a y) with h | h
    · rcases max_cases a y with ⟨hm, _⟩ | ⟨hm, _⟩
      · left
        rw [List.foldl_cons, h, hm]
      · right
        rw [List.foldl_cons, h, hm]
        exact List.mem_cons_self y ys
    · right
      exact List.mem_cons_of_mem y h

theorem foldl_add_eq_sum (l : List ℚ) (a : ℚ) :
    l.foldl (· + ·) a = a + l.sum := by
  induction l generalizing a with
  | nil => simp
  | cons y ys ih =>
    rw [List.foldl_cons, ih, List.sum_cons]
    ring

/-- A seeded fold over min is the minimum when the seed itself occurs in the
list: it is a member and a lower bound. -/
theorem foldl_min_spec (l : List ℚ) (a : ℚ) (ha : a ∈ l) :
    l.foldl min a ∈ l ∧ ∀ x ∈ l, l.foldl min a ≤ x := by
  rcases foldl_min_mem l a with h | h
  · exact ⟨by rw [h]; exact ha, (foldl_min_le l a).2⟩
  · exact ⟨h, (foldl_min_le l a).2⟩

/-- A seeded fold over max is the maximum when the seed itself occurs in the
list: it is a member and an upper bound. -/
theorem foldl_max_spec (l : List ℚ) (a : ℚ) (ha : a ∈ l) :
    l.foldl max a ∈ l ∧ ∀ x ∈ l, x ≤ l.foldl max a := by
  rcases foldl_max_mem l a with h | h
  · exact ⟨by rw [h]; exact ha, (foldl_max_ge l a).2⟩
  · exact ⟨h, (foldl_max_ge l a).2⟩

/-- **C4**: whenever `_calculateStatistics` recomputes the statistics from a
nonempty history, each per-channel min is a retained reading's value and a
lower bound on all of them, each max is a retained value and an upper
bound, and each avg is exactly the sum of the retained values divided by
their count — a window statistic over exactly the readings currently in the
history, never a lifetime aggregate. -/
theorem statistics_window_exact (history : List SensorReading)
    (st : SensorStats) (h : calculateStatistics history = some st) :
    (st.minTemperature ∈ history.map (·.temperature) ∧
       ∀ r ∈ history, st.minTemperature ≤ r.temperature) ∧
    (st.maxTemperature ∈ history.map (·.temperature) ∧
       ∀ r ∈ history, r.temperature ≤ st.maxTemperature) ∧
    st.avgTemperature =
      (history.map (·.temperature)).sum / (history.length : ℚ) ∧
    (st.minHumidity ∈ history.map (·.humidity) ∧
       ∀ r ∈ history, st.minHumidity ≤ r.humidity) ∧
    (st.maxHumidity ∈ history.map (·.humidity) ∧
       ∀ r ∈ history, r.humidity ≤ st.maxHumidity) ∧
    st.avgHumidity = (history.map (·.humidity)).sum / (history.length : ℚ) ∧
    (st.minPressure ∈ history.map (·.pressure) ∧
       ∀ r ∈ history, st.minPressure ≤ r.pressure) ∧
    (st.maxPressure ∈ history.map (·.pressure) ∧
       ∀ r ∈ history, r.pressure ≤ st.maxPressure) ∧
    st.avgPressure = (history.map (·.pressure)).sum / (history.length : ℚ) ∧
    (st.minLightLevel ∈ history.map (·.lightLevel) ∧
       ∀ r ∈ history, st.minLightLevel ≤ r.lightLevel) ∧
    (st.maxLightLevel ∈ history.map (·.lightLevel) ∧
       ∀ r ∈ history, r.lightLevel ≤ st.maxLightLevel) ∧
    st.avgLightLevel =
      (history.map (·.lightLevel)).sum / (history.length : ℚ) := by
  match history with
  | [] => simp [calculateStatistics] at h
  | r0 :: rest =>
    rw [calculateStatistics] at h
    set hist := r0 :: rest with hhist
    obtain ⟨hT, hT', hTs, hH, hH', hHs, hP, hP', hPs, hL, hL', hLs⟩ :=
      foldl_statsStep_fields hist
        { minT := r0.temperature, maxT := r0.temperature, sumT := 0
          minH := r0.humidity, maxH := r0.humidity, sumH := 0
          minP := r0.pressure, maxP := r0.pressure, sumP := 0
          minL := r0.lightLevel, maxL := r0.lightLevel, sumL := 0 }
    have hr0 : r0 ∈ hist := List.mem_cons_self r0 rest
    have hst := Option.some.inj h
    subst hst
    refine ⟨?_, ?_, ?_, ?_, ?_, ?_, ?_, ?_, ?_, ?_, ?_, ?_⟩
    · rw [hT]
      obtain ⟨hmem, hbd⟩ := foldl_min_spec (hist.map (·.temperature))
        r0.temperature (List.mem_map_of_mem _ hr0)
      exact ⟨hmem, fun r hr => hbd _ (List.mem_map_of_mem _ hr)⟩
    · rw [hT']
      obtain ⟨hmem, hbd⟩ := foldl_max_spec (hist.map (·.temperature))
        r0.temperature (List.mem_map_of_mem _ hr0)
      exact ⟨hmem, fun r hr => hbd _ (List.mem_map_of_mem _ hr)⟩
    · rw [hTs, foldl_add_eq_sum, zero_add]
    · rw [hH]
      obtain ⟨hmem, hbd⟩ := foldl_min_spec (hist.map (·.humidity))
        r0.humidity (List.mem_map_of_mem _ hr0)
      exact ⟨hmem, fun r hr => hbd _ (List.mem_map_of_mem _ hr)⟩
    · rw [hH']
      obtain ⟨hmem, hbd⟩ := foldl_max_spec (hist.map (·.humidity))
        r0.humidity (List.mem_map_of_mem _ hr0)
      exact ⟨hmem, fun r hr => hbd _ (List.mem_map_of_mem _ hr)⟩
    · rw [hHs, foldl_add_eq_sum, zero_add]
    · rw [hP]
      obtain ⟨hmem, hbd⟩ := foldl_min_spec (hist.map (·.pressure))
        r0.pressure (List.mem_map_of_mem _ hr0)
      exact ⟨hmem, fun r hr => hbd _ (List.mem_map_of_mem _ hr)⟩
    · rw [hP']
      obtain ⟨hmem, hbd⟩ := foldl_max_spec (hist.map (·.pressure))
        r0.pressure (List.mem_map_of_mem _ hr0)
      exact ⟨hmem, fun r hr => hbd _ (List.mem_map_of_mem _ hr)⟩
    · rw [hPs, foldl_add_eq_sum, zero_add]
    · rw [hL]
      obtain ⟨hmem, hbd⟩ := foldl_min_spec (hist.map (·.lightLevel))
        r0.lightLevel (List.mem_map_of_mem _ hr0)
      exact ⟨hmem, fun r hr => hbd _ (List.mem_map_of_mem _ hr)⟩
    · rw [hL']
      obtain ⟨hmem, hbd⟩ := foldl_max_spec (hist.map (·.lightLevel))
        r0.lightLevel (List.mem_map_of_mem _ hr0)
      exact ⟨hmem, fun r hr => hbd _ (List.mem_map_of_mem _ hr)⟩
    · rw [hLs, foldl_add_eq_sum, zero_add]

/-- The statistics record produced from the one-element history
`[reading1]`. -/
def sampleStats : SensorStats :=
  { minTemperature := 20, maxTemperature := 20, avgTemperature := 20
    minHumidity := 40, maxHumidity := 40, avgHumidity := 40
    minPressure := 1000, maxPressure := 1000, avgPressure := 1000
    minLightLevel := 50, maxLightLevel := 50, avgLightLevel := 50 }

/-- Witness for C4 at the one-element history `[reading1]`. -/
theorem statistics_window_exact_witness :
    calculateStatistics [reading1] = some sampleStats ∧
    ((sampleStats.minTemperature ∈ [reading1].map (·.temperature) ∧
        ∀ r ∈ [reading1], sampleStats.minTemperature ≤ r.temperature) ∧
     (sampleStats.maxTemperature ∈ [reading1].map (·.temperature) ∧
        ∀ r ∈ [reading1], r.temperature ≤ sampleStats.maxTemperature) ∧
     sampleStats.avgTemperature =
       ([reading1].map (·.temperature)).sum / (([reading1].length : Nat) : ℚ) ∧
     (sampleStats.minHumidity ∈ [reading1].map (·.humidity) ∧
        ∀ r ∈ [reading1], sampleStats.minHumidity ≤ r.humidity) ∧
     (sampleStats.maxHumidity ∈ [reading1].map (·.humidity) ∧
        ∀ r ∈ [reading1], r.humidity ≤ sampleStats.maxHumidity) ∧
     sampleStats.avgHumidity =
       ([reading1].map (·.humidity)).sum / (([reading1].length : Nat) : ℚ) ∧
     (sampleStats.minPressure ∈ [reading1].map (·.pressure) ∧
        ∀ r ∈ [reading1], sampleStats.minPressure ≤ r.pressure) ∧
     (sampleStats.maxPressure ∈ [reading1].map (·.pressure) ∧
        ∀ r ∈ [reading1], r.pressure ≤ sampleStats.maxPressure) ∧
     sampleStats.avgPressure =
       ([reading1].map (·.pressure)).sum / (([reading1].length : Nat) : ℚ) ∧
     (sampleStats.minLightLevel ∈ [reading1].map (·.lightLevel) ∧
        ∀ r ∈ [reading1], sampleStats.minLightLevel ≤ r.lightLevel) ∧
     (sampleStats.maxLightLevel ∈ [reading1].map (·.lightLevel) ∧
        ∀ r ∈ [reading1], r.lightLevel ≤ sampleStats.maxLightLevel) ∧
     sampleStats.avgLightLevel =
       ([reading1].map (·.lightLevel)).sum / (([reading1].length : Nat) : ℚ)) :=
  have hcalc : calculateStatistics [reading1] = some sampleStats := by
    norm_num [calculateStatistics, statsStep, reading1, sampleStats]
  ⟨hcalc, statistics_window_exact [reading1] sampleStats hcalc⟩

/-- **C9 (counterexample)**: with trend 0, walk delta 20, calibration offset
50 and a noise draw of 1/2 (within the humidity noise level 0.5), the
reported humidity is 100.5, outside [0, 100]: the claim that the final
value lies in [0, 100] after the random walk, noise and offset have all
been applied is false, because the clamp runs before the noise term. -/
theorem humidity_final_value_exceeds_range :
    |(1 / 2 : ℚ)| ≤ 1 / 2 ∧
    (updateHumidity 0 20 50 (1 / 2)).1 = 201 / 2 ∧
    ¬((0 : ℚ) ≤ (updateHumidity 0 20 50 (1 / 2)).1 ∧
      (updateHumidity 0 20 50 (1 / 2)).1 ≤ 100) := by
  norm_num [abs_le, updateHumidity, generateSensorValue, applyNoise, constrain,
    HUMIDITY_BASE, HUMIDITY_VARIATION]

/-- **C9 (amended)**: the humidity value is clamped to [0, 100] after the
random-walk value and the calibration offset are applied but *before* the
noise term, so the final reported value lies in
[-noiseLevel, 100 + noiseLevel] with noiseLevel = 0.5 — it can exceed the
claimed [0, 100] range by at most the noise magnitude. -/
theorem humidity_clamped_before_noise (trend delta offset noise : ℚ)
    (hnoise : |noise| ≤ 1 / 2) :
    -(1 / 2 : ℚ) ≤ (updateHumidity trend delta offset noise).1 ∧
    (updateHumidity trend delta offset noise).1 ≤ 100 + 1 / 2 := by
  obtain ⟨hlo, hhi⟩ := abs_le.mp hnoise
  have hbounds : (0 : ℚ) ≤ constrain
        ((generateSensorValue HUMIDITY_BASE HUMIDITY_VARIATION trend delta).1
          + offset) 0 100 ∧
      constrain
        ((generateSensorValue HUMIDITY_BASE HUMIDITY_VARIATION trend delta).1
          + offset) 0 100 ≤ 100 := by
    unfold constrain
    split_ifs <;> constructor <;> linarith
  unfold updateHumidity applyNoise
  constructor
  · linarith [hbounds.1]
  · linarith [hbounds.2]

/-- Witness for C9 (amended) at the counterexample's inputs. -/
theorem humidity_clamped_before_noise_witness :
    |(1 / 2 : ℚ)| ≤ 1 / 2 ∧
    (-(1 / 2 : ℚ) ≤ (updateHumidity 0 20 50 (1 / 2)).1 ∧
     (updateHumidity 0 20 50 (1 / 2)).1 ≤ 100 + 1 / 2) :=
  ⟨by rw [abs_le]; norm_num,
    humidity_clamped_before_noise 0 20 50 (1 / 2) (by rw [abs_le]; norm_num)⟩

end ESP32
